import Mathlib

/-!
Verification development for the `wheel-clock` repository.

The repository ships two parallel implementations of the same component:
`src/wheel-clock.ts` (legacy variant, embedded below in namespace `WC`) and
`src/index.ts` (modern variant, embedded in namespace `IX`).  JavaScript
numbers are modelled by `JSNum`: an integer together with the special values
`NaN`, `Infinity` and `-Infinity` (all values the claims exercise are
integral, so the fractional part of IEEE doubles is irrelevant here).  DOM
side effects are modelled as explicit state: each tracker records the digit
rendered in each wheel, the animation bookkeeping (timeout ids in `WC`,
abort-controller ids in `IX`) and the set of outstanding host timers.
-/

/-- Time units, as in `type TimeUnit = "Seconds" | "Minutes" | "Hours" | "Days"`. -/
inductive TimeUnit
  | Seconds
  | Minutes
  | Hours
  | Days
deriving DecidableEq

/-- Wheel slots, as in `type WheelType = "tens" | "ones"`. -/
inductive WheelType
  | tens
  | ones
deriving DecidableEq

/-- A JavaScript number: an integer, or one of the special values
`NaN`, `Infinity`, `-Infinity`. -/
inductive JSNum
  | int (n : Int)
  | nan
  | posInf
  | negInf
deriving DecidableEq

/-- JavaScript `isNaN` on an already-coerced number. -/
def jsIsNaN : JSNum → Bool
  | .nan => true
  | _ => false

/-- JavaScript strict equality `===` on numbers (`NaN === NaN` is `false`). -/
def jsStrictEq : JSNum → JSNum → Bool
  | .nan, _ => false
  | _, .nan => false
  | .int a, .int b => decide (a = b)
  | .posInf, .posInf => true
  | .negInf, .negInf => true
  | _, _ => false

/-- JavaScript `<` on numbers (any comparison with `NaN` is `false`). -/
def jsLt : JSNum → JSNum → Bool
  | .nan, _ => false
  | _, .nan => false
  | .negInf, .negInf => false
  | .negInf, _ => true
  | .int a, .int b => decide (a < b)
  | .int _, .posInf => true
  | .int _, .negInf => false
  | .posInf, _ => false

/-- JavaScript `<=` on numbers (any comparison with `NaN` is `false`). -/
def jsLe : JSNum → JSNum → Bool
  | .nan, _ => false
  | _, .nan => false
  | .negInf, _ => true
  | .int a, .int b => decide (a ≤ b)
  | .int _, .posInf => true
  | .int _, .negInf => false
  | .posInf, .posInf => true
  | .posInf, _ => false

/-- JavaScript `>`. -/
def jsGt (a b : JSNum) : Bool := jsLt b a

/-- JavaScript `>=`. -/
def jsGe (a b : JSNum) : Bool := jsLe b a

/-- JavaScript `String(num)` for the numbers that can occur here. -/
def jsToString : JSNum → String
  | .int n => toString n
  | .nan => "NaN"
  | .posInf => "Infinity"
  | .negInf => "-Infinity"

/-- JavaScript `str.padStart(2, "0")`. -/
def jsPadStart2 (s : String) : String :=
  if s.toList.length ≥ 2 then s
  else String.mk (List.replicate (2 - s.toList.length) '0') ++ s

/-- JavaScript `str.slice(-2)`: the last two characters (the whole string when
it is shorter than two characters). -/
def jsSliceLast2 (s : String) : String :=
  String.mk (s.toList.drop (s.toList.length - 2))

/-- JavaScript `s[i]` on a string, fed to `parseInt`: an out-of-range index
yields `undefined`, which `parseInt` turns into `NaN`, so a non-digit
placeholder is an equivalent model. -/
def jsCharAt (s : String) (i : Nat) : Char :=
  s.toList.getD i ' '

/-- JavaScript `parseInt(c, 10)` on a single character: a decimal digit parses
to its value, anything else gives `NaN` (modelled as `none`). -/
def jsParseIntDigit (c : Char) : Option Nat :=
  if c.isDigit then some (c.toNat - '0'.toNat) else none

/-- Project a digit pair onto one wheel slot. -/
def digitOf (w : WheelType) (p : Nat × Nat) : Nat :=
  match w with
  | .tens => p.1
  | .ones => p.2

namespace WC
/-!
Embedding of `src/wheel-clock.ts` (the legacy variant).
-/

/-- Result record of `getTimeUnitCycleInfo`. -/
structure CycleInfo where
  isCycle : Bool
  isForward : Bool
deriving DecidableEq

/-- `CountdownTracker.formatValue` (src/wheel-clock.ts:235):
NaN formats to `"00"`; values `>= 100` print unpadded; everything else is
printed and padded with `padStart(2, "0")`. -/
def formatValue (value : JSNum) : String :=
  if jsIsNaN value then "00"
  else if jsGe value (.int 100) then jsToString value
  else jsPadStart2 (jsToString value)

/-- `CountdownTracker.parseDigits` (src/wheel-clock.ts:252): take the last two
characters of the (left-padded) string, `parseInt` each, and map `NaN` to 0. -/
def parseDigits (value : String) : Nat × Nat :=
  let str := value
  let paddedStr := if str.toList.length ≥ 2 then str else jsPadStart2 str
  let lastTwo := jsSliceLast2 paddedStr
  let tens := jsParseIntDigit (jsCharAt lastTwo 0)
  let ones := jsParseIntDigit (jsCharAt lastTwo 1)
  (tens.getD 0, ones.getD 0)

/-- `CountdownTracker.getTimeUnitCycleInfo` (src/wheel-clock.ts:187): detects
the 59↔0 wrap for Seconds/Minutes and the 23↔0 wrap for Hours.  The tracker's
`label` field is passed explicitly. -/
def getTimeUnitCycleInfo (label : TimeUnit) (oldValue newValue : JSNum) :
    Option CycleInfo :=
  let hoursCase : Option CycleInfo :=
    if label = .Hours then
      if jsStrictEq oldValue (.int 23) && jsStrictEq newValue (.int 0) then
        some ⟨true, true⟩
      else if jsStrictEq oldValue (.int 0) && jsStrictEq newValue (.int 23) then
        some ⟨true, false⟩
      else none
    else none
  if label = .Seconds ∨ label = .Minutes then
    if jsStrictEq oldValue (.int 59) && jsStrictEq newValue (.int 0) then
      some ⟨true, true⟩
    else if jsStrictEq oldValue (.int 0) && jsStrictEq newValue (.int 59) then
      some ⟨true, false⟩
    else hoursCase
  else hoursCase

/-- `CountdownTracker.handleRolloverCases` (src/wheel-clock.ts:367): digit
9→0 / 0→9 rollovers, refined by the overall value direction. -/
def handleRolloverCases (oldDigit newDigit : Nat) (oldValue newValue : JSNum) :
    Option Bool :=
  let isForwardRollover0 :=
    decide (oldDigit = 9) && decide (newDigit = 0) && jsGt newValue oldValue
  let isBackwardRollover0 :=
    decide (oldDigit = 0) && decide (newDigit = 9) && jsLt newValue oldValue
  let pair :=
    if !isForwardRollover0 && !isBackwardRollover0 then
      if decide (oldDigit = 9) && decide (newDigit = 0) then
        (jsGe newValue oldValue, isBackwardRollover0)
      else if decide (oldDigit = 0) && decide (newDigit = 9) then
        (isForwardRollover0, jsLe newValue oldValue)
      else (isForwardRollover0, isBackwardRollover0)
    else (isForwardRollover0, isBackwardRollover0)
  if pair.1 then some true
  else if pair.2 then some false
  else none

/-- `CountdownTracker.getDirectionBasedOnValue` (src/wheel-clock.ts:402). -/
def getDirectionBasedOnValue (newValue oldValue : JSNum)
    (newDigit oldDigit : Nat) : Bool :=
  if jsLt newValue oldValue then false
  else if jsGt newValue oldValue then true
  else decide (newDigit > oldDigit)

/-- Fall-through of `getWheelDirection` after the cycle check: rollover cases,
then value-direction comparison (src/wheel-clock.ts:344-360). -/
def wheelDirectionFallback (oldDigit newDigit : Nat)
    (oldValue newValue : JSNum) : Bool :=
  match handleRolloverCases oldDigit newDigit oldValue newValue with
  | some r => r
  | none => getDirectionBasedOnValue newValue oldValue newDigit oldDigit

/-- `CountdownTracker.getWheelDirection` (src/wheel-clock.ts:331): `true`
means the wheel rolls forward ("up"), `false` backward ("down").  The
unit-level cycle check takes precedence over the fallbacks. -/
def getWheelDirection (label : TimeUnit) (oldDigit newDigit : Nat)
    (oldValue newValue : JSNum) : Bool :=
  match getTimeUnitCycleInfo label oldValue newValue with
  | some cycleInfo =>
    if cycleInfo.isCycle then cycleInfo.isForward
    else wheelDirectionFallback oldDigit newDigit oldValue newValue
  | none => wheelDirectionFallback oldDigit newDigit oldValue newValue

/-- State of a `CountdownTracker` instance of src/wheel-clock.ts, together
with the host resources it touches.  `tensValue`/`onesValue` are the
`data-value` attributes (the displayed digits), `tensPrevious`/`onesPrevious`
the `data-previous` attributes, `tensAnimClass`/`onesAnimClass` the animation
CSS class on each wheel (`some true` = `wheel-increasing`, `some false` =
`wheel-decreasing`), `tensTimeout`/`onesTimeout` the `animationTimeouts` map
entries, and `pendingTimers` the timeouts currently scheduled with the host
(`window.setTimeout` ids, tagged with the wheel whose cleanup they perform).
Browser timer ids are positive, so `nextTimerId` starts at 1 and the code's
truthiness test on a stored id is equivalent to presence in the map. -/
structure TrackerState where
  label : TimeUnit
  currentValue : JSNum
  tensValue : Nat
  onesValue : Nat
  tensPrevious : Option Nat
  onesPrevious : Option Nat
  tensAnimClass : Option Bool
  onesAnimClass : Option Bool
  tensTimeout : Option Nat
  onesTimeout : Option Nat
  pendingTimers : List (Nat × WheelType)
  nextTimerId : Nat
  elRemoved : Bool
deriving DecidableEq

/-- The `animationTimeouts` entry for one wheel. -/
def TrackerState.timeoutOf (s : TrackerState) (w : WheelType) : Option Nat :=
  match w with
  | .tens => s.tensTimeout
  | .ones => s.onesTimeout

/-- Set the `animationTimeouts` entry for one wheel. -/
def TrackerState.setTimeoutOf (s : TrackerState) (w : WheelType)
    (v : Option Nat) : TrackerState :=
  match w with
  | .tens => { s with tensTimeout := v }
  | .ones => { s with onesTimeout := v }

/-- The `data-value` digit shown on one wheel. -/
def TrackerState.valueOf (s : TrackerState) (w : WheelType) : Nat :=
  match w with
  | .tens => s.tensValue
  | .ones => s.onesValue

/-- Set the `data-value` digit of one wheel. -/
def TrackerState.setValueOf (s : TrackerState) (w : WheelType) (d : Nat) :
    TrackerState :=
  match w with
  | .tens => { s with tensValue := d }
  | .ones => { s with onesValue := d }

/-- Set the `data-previous` digit of one wheel. -/
def TrackerState.setPrevOf (s : TrackerState) (w : WheelType)
    (d : Option Nat) : TrackerState :=
  match w with
  | .tens => { s with tensPrevious := d }
  | .ones => { s with onesPrevious := d }

/-- Set the animation class of one wheel. -/
def TrackerState.setClassOf (s : TrackerState) (w : WheelType)
    (c : Option Bool) : TrackerState :=
  match w with
  | .tens => { s with tensAnimClass := c }
  | .ones => { s with onesAnimClass := c }

/-- `clearTimeout(id)`: the host discards the scheduled timeout with that id
(browser timer ids are unique, so at most one entry is affected). -/
def removeTimer (id : Nat) : List (Nat × WheelType) → List (Nat × WheelType)
  | [] => []
  | p :: rest =>
    if p.1 = id then removeTimer id rest else p :: removeTimer id rest

/-- `CountdownTracker.setWheelDataValue` (src/wheel-clock.ts:164): format the
target value, parse its digits and write the slot's digit to `data-value`. -/
def setWheelDataValue (w : WheelType) (targetValue : JSNum)
    (s : TrackerState) : TrackerState :=
  s.setValueOf w (digitOf w (parseDigits (formatValue targetValue)))

/-- `CountdownTracker.clearAnimationTimeout` (src/wheel-clock.ts:427): cancel
and forget the wheel's pending cleanup timeout, if any. -/
def clearAnimationTimeout (w : WheelType) (s : TrackerState) : TrackerState :=
  match s.timeoutOf w with
  | some existingTimeout =>
    ({ s with pendingTimers := removeTimer existingTimeout s.pendingTimers
     } : TrackerState).setTimeoutOf w none
  | none => s

/-- `CountdownTracker.updateWheel` (src/wheel-clock.ts:276): no-op when the
slot's digit is unchanged; otherwise decide the direction, write the new
`data-value`, clear the wheel's previous timeout, swap the animation class and
schedule a fresh cleanup timeout. -/
def updateWheel (w : WheelType) (oldValue newValue : JSNum)
    (s : TrackerState) : TrackerState :=
  let oldDigit := digitOf w (parseDigits (formatValue oldValue))
  let newDigit := digitOf w (parseDigits (formatValue newValue))
  if oldDigit = newDigit then s
  else
    let isIncreasing := getWheelDirection s.label oldDigit newDigit oldValue newValue
    let s := setWheelDataValue w newValue s
    let s := clearAnimationTimeout w s
    let s := s.setClassOf w (some isIncreasing)
    let timeoutId := s.nextTimerId
    let s := { s with
      pendingTimers := s.pendingTimers ++ [(timeoutId, w)],
      nextTimerId := timeoutId + 1 }
    s.setTimeoutOf w (some timeoutId)

/-- The host fires a due cleanup timeout (the callback registered at
src/wheel-clock.ts:310): remove the animation classes and drop the map
entry.  A cancelled timeout never fires. -/
def fireTimeout (id : Nat) (w : WheelType) (s : TrackerState) : TrackerState :=
  if (id, w) ∈ s.pendingTimers then
    (({ s with pendingTimers := removeTimer id s.pendingTimers
      } : TrackerState).setClassOf w none).setTimeoutOf w none
  else s

/-- `CountdownTracker.update` (src/wheel-clock.ts:455).  The argument is the
result of `Number(val)`.  Note the guard is strict inequality `!==`. -/
def update (val : JSNum) (s : TrackerState) : TrackerState :=
  let newValue := val
  if !jsStrictEq newValue s.currentValue then
    let oldValue := s.currentValue
    let s :=
      if jsGe oldValue (.int 0) then
        let d := parseDigits (formatValue oldValue)
        (s.setPrevOf .tens (some d.1)).setPrevOf .ones (some d.2)
      else s
    let s := { s with currentValue := newValue }
    let s := updateWheel .tens oldValue newValue s
    updateWheel .ones oldValue newValue s
  else s

/-- `CountdownTracker.clearAnimationTimeouts` (src/wheel-clock.ts:440):
cancel every id stored in the map, then clear the map. -/
def clearAnimationTimeouts (s : TrackerState) : TrackerState :=
  let l := s.pendingTimers
  let l := match s.tensTimeout with
    | some id => removeTimer id l
    | none => l
  let l := match s.onesTimeout with
    | some id => removeTimer id l
    | none => l
  { s with pendingTimers := l, tensTimeout := none, onesTimeout := none }

/-- `CountdownTracker.destroy` (src/wheel-clock.ts:486): clear the timeout
map and detach the element.  No destroyed flag is recorded. -/
def destroy (s : TrackerState) : TrackerState :=
  { clearAnimationTimeouts s with elRemoved := true }

/-- The `CountdownTracker` constructor (src/wheel-clock.ts:62).  The `value`
argument is the result of the `Number(value)` coercion; `NaN` is replaced by
0, then both wheels are rendered from the current value. -/
def construct (label : TimeUnit) (value : JSNum) : TrackerState :=
  let numValue := value
  let currentValue := if jsIsNaN numValue then .int 0 else numValue
  let d := parseDigits (formatValue currentValue)
  { label := label
    currentValue := currentValue
    tensValue := d.1
    onesValue := d.2
    tensPrevious := none
    onesPrevious := none
    tensAnimClass := none
    onesAnimClass := none
    tensTimeout := none
    onesTimeout := none
    pendingTimers := []
    nextTimerId := 1
    elRemoved := false }

/-- The host-level animation bookkeeping calls `updateWheel` makes, in
program order. -/
inductive AnimAction
  | cancelTimeout (id : Nat)
  | startTimeout (id : Nat)
deriving DecidableEq

/-- The sequence of host timer calls performed by one `updateWheel`
invocation (src/wheel-clock.ts:276): nothing when the slot's digit is
unchanged; otherwise the `clearTimeout` of the wheel's existing timeout (if
any, src/wheel-clock.ts:303 via `clearAnimationTimeout`) strictly before the
`window.setTimeout` of the new cleanup callback (src/wheel-clock.ts:310),
which is allocated the next fresh timer id. -/
def updateWheelTrace (w : WheelType) (oldValue newValue : JSNum)
    (s : TrackerState) : List AnimAction :=
  let oldDigit := digitOf w (parseDigits (formatValue oldValue))
  let newDigit := digitOf w (parseDigits (formatValue newValue))
  if oldDigit = newDigit then []
  else
    (match s.timeoutOf w with
     | some existingTimeout => [AnimAction.cancelTimeout existingTimeout]
     | none => []) ++ [AnimAction.startTimeout s.nextTimerId]

/-- The ids of the outstanding host timers that belong to one wheel slot. -/
def slotIds : List (Nat × WheelType) → WheelType → List Nat
  | [], _ => []
  | p :: rest, w =>
    if p.2 = w then p.1 :: slotIds rest w else slotIds rest w

/-- The outstanding animation-timeout ids of one wheel slot of a tracker. -/
def slotTimers (s : TrackerState) (w : WheelType) : List Nat :=
  slotIds s.pendingTimers w

/-- Bookkeeping invariant tying the `animationTimeouts` map to the host's
outstanding timers: each wheel's outstanding cleanup timers are exactly the
wheel's map entry, every outstanding id is older than the id counter, and the
two wheels never share an id. -/
def TimerInv (s : TrackerState) : Prop :=
  slotTimers s .tens = s.tensTimeout.toList ∧
  slotTimers s .ones = s.onesTimeout.toList ∧
  (∀ p ∈ s.pendingTimers, p.1 < s.nextTimerId) ∧
  (s.tensTimeout = none ∨ s.tensTimeout ≠ s.onesTimeout)

end WC

namespace IX
/-!
Embedding of `src/index.ts` (the modern variant).
-/

/-- The `type` option of `CountdownTrackerOptions`. -/
inductive TrackerType
  | clock
  | countdown
deriving DecidableEq

/-- The `direction` animation option. -/
inductive AnimDirection
  | up
  | down
  | auto
deriving DecidableEq

/-- `CountdownTracker.formatValue` (src/index.ts:303): NaN → `"00"`,
`num < 10` → `` `0${num}` ``, otherwise `String(num)`. -/
def formatValue (value : JSNum) : String :=
  if jsIsNaN value then "00"
  else if jsLt value (.int 10) then "0" ++ jsToString value
  else if jsLt value (.int 100) then jsToString value
  else jsToString value

/-- `CountdownTracker.parseDigits` (src/index.ts:323): last two characters
when the string has at least two, else `[0, parseInt(str[0] || "0")]`.
Unlike the legacy variant there is no NaN safety net, so a digit is an
`Option Nat` with `none` playing JavaScript's `NaN`. -/
def parseDigits (value : String) : Option Nat × Option Nat :=
  let str := value
  if str.toList.length ≥ 2 then
    let lastTwo := jsSliceLast2 str
    (jsParseIntDigit (jsCharAt lastTwo 0), jsParseIntDigit (jsCharAt lastTwo 1))
  else
    (some 0, jsParseIntDigit (jsCharAt (if str.toList.length = 0 then "0" else str) 0))

/-- Project an optional digit pair onto one wheel slot. -/
def digitOfO (w : WheelType) (p : Option Nat × Option Nat) : Option Nat :=
  match w with
  | .tens => p.1
  | .ones => p.2

/-- JavaScript `===` on two digits that may be `NaN` (`NaN === NaN` is
`false`). -/
def digitStrictEq (a b : Option Nat) : Bool :=
  match a, b with
  | some x, some y => decide (x = y)
  | _, _ => false

/-- `targetDigit.toString()` for an optional digit: `NaN` prints `"NaN"`. -/
def digitToString : Option Nat → String
  | some d => toString d
  | none => "NaN"

/-- State of a `CountdownTracker` of src/index.ts.  `tensText`/`onesText` are
the `textContent` of each wheel's `.wheel-value--current` div;
`tensPending`/`onesPending` the text of an incoming value div appended during
an animation (so `tensDivCount`/`onesDivCount` track how many `.wheel-value`
divs the wheel holds); `tensController`/`onesController` the
`animationControllers` map entries (abort-controller ids); `warnings` counts
`console.warn` emissions. -/
structure TrackerState where
  currentValue : JSNum
  ttype : TrackerType
  animDuration : Int
  animDirection : AnimDirection
  tensText : String
  onesText : String
  tensPending : Option String
  onesPending : Option String
  tensDivCount : Nat
  onesDivCount : Nat
  tensController : Option Nat
  onesController : Option Nat
  nextControllerId : Nat
  warnings : Nat
  elRemoved : Bool
deriving DecidableEq

/-- The `animationControllers` entry for one wheel. -/
def TrackerState.controllerOf (s : TrackerState) (w : WheelType) : Option Nat :=
  match w with
  | .tens => s.tensController
  | .ones => s.onesController

/-- Set the `animationControllers` entry for one wheel. -/
def TrackerState.setControllerOf (s : TrackerState) (w : WheelType)
    (v : Option Nat) : TrackerState :=
  match w with
  | .tens => { s with tensController := v }
  | .ones => { s with onesController := v }

/-- Set the current div text of one wheel. -/
def TrackerState.setTextOf (s : TrackerState) (w : WheelType) (t : String) :
    TrackerState :=
  match w with
  | .tens => { s with tensText := t }
  | .ones => { s with onesText := t }

/-- Number of `.wheel-value` divs in one wheel. -/
def TrackerState.divCountOf (s : TrackerState) (w : WheelType) : Nat :=
  match w with
  | .tens => s.tensDivCount
  | .ones => s.onesDivCount

/-- Set the div count of one wheel. -/
def TrackerState.setDivCountOf (s : TrackerState) (w : WheelType) (n : Nat) :
    TrackerState :=
  match w with
  | .tens => { s with tensDivCount := n }
  | .ones => { s with onesDivCount := n }

/-- Set the pending (incoming) div text of one wheel. -/
def TrackerState.setPendingOf (s : TrackerState) (w : WheelType)
    (t : Option String) : TrackerState :=
  match w with
  | .tens => { s with tensPending := t }
  | .ones => { s with onesPending := t }

/-- `CountdownTracker.setWheelValue` (src/index.ts:264): write the formatted
target digit into the wheel's current div. -/
def setWheelValue (w : WheelType) (targetValue : JSNum) (s : TrackerState) :
    TrackerState :=
  s.setTextOf w (digitToString (digitOfO w (parseDigits (formatValue targetValue))))

/-- `CountdownTracker.getAnimationDirection` (src/index.ts:379): the
configured direction unless it is `auto`, in which case countdown trackers
roll down and others up.  `true` = up. -/
def getAnimationDirection (s : TrackerState) : Bool :=
  match s.animDirection with
  | .up => true
  | .down => false
  | .auto => decide (s.ttype ≠ .countdown)

/-- `CountdownTracker.cancelWheelAnimation` (src/index.ts:521): abort and
forget the wheel's controller, and collapse any extra value divs back to a
single current div (whose text is kept). -/
def cancelWheelAnimation (w : WheelType) (s : TrackerState) : TrackerState :=
  let s :=
    match s.controllerOf w with
    | some _ => s.setControllerOf w none
    | none => s
  if s.divCountOf w > 1 then
    (s.setDivCountOf w 1).setPendingOf w none
  else s

/-- `CountdownTracker.animateWheelTransition` (src/index.ts:397): append an
incoming div holding the new digit's text and register a fresh abort
controller for the pair of animations.  The direction only selects keyframes,
which are visual and not part of the state. -/
def animateWheelTransition (w : WheelType) (newDigit : Option Nat)
    (_direction : Bool) (s : TrackerState) : TrackerState :=
  let s := s.setPendingOf w (some (digitToString newDigit))
  let s := s.setDivCountOf w (s.divCountOf w + 1)
  let controllerId := s.nextControllerId
  { s.setControllerOf w (some controllerId) with
    nextControllerId := controllerId + 1 }

/-- The `Promise.all(...).then` handler of a finished, non-aborted transition
(`completeWheelTransition`, src/index.ts:493): the old div is removed and the
incoming div becomes the current one. -/
def completeWheelTransition (w : WheelType) (s : TrackerState) : TrackerState :=
  if (s.controllerOf w).isSome ∧ s.divCountOf w > 1 then
    let s := s.setTextOf w ((match w with
      | .tens => s.tensPending
      | .ones => s.onesPending).getD (match w with
      | .tens => s.tensText
      | .ones => s.onesText))
    (((s.setPendingOf w none).setDivCountOf w 1).setControllerOf w none)
  else s

/-- `CountdownTracker.updateWheel` (src/index.ts:346): skip when the digit is
unchanged (JavaScript `===`, so two NaN digits count as a change), cancel any
existing animation for the wheel, then animate or set instantly depending on
the configured duration. -/
def updateWheel (w : WheelType) (oldDigit newDigit : Option Nat)
    (s : TrackerState) : TrackerState :=
  if digitStrictEq oldDigit newDigit then s
  else
    let s := cancelWheelAnimation w s
    let direction := getAnimationDirection s
    if s.animDuration > 0 then animateWheelTransition w newDigit direction s
    else setWheelValue w s.currentValue s

/-- `CountdownTracker.update` (src/index.ts:558): warn and drop values that
are NaN, negative or above 9999; no-op on a strictly equal value; otherwise
store the value and update both wheels. -/
def update (val : JSNum) (s : TrackerState) : TrackerState :=
  let newValue := val
  if jsIsNaN newValue || jsLt newValue (.int 0) || jsGt newValue (.int 9999) then
    { s with warnings := s.warnings + 1 }
  else if jsStrictEq newValue s.currentValue then s
  else
    let old := parseDigits (formatValue s.currentValue)
    let s := { s with currentValue := newValue }
    let new := parseDigits (formatValue s.currentValue)
    let s := updateWheel .tens old.1 new.1 s
    updateWheel .ones old.2 new.2 s

/-- `CountdownTracker.destroy` (src/index.ts:586): abort every controller,
clear the map, and detach the element.  No destroyed flag is recorded on the
tracker. -/
def destroy (s : TrackerState) : TrackerState :=
  { s with tensController := none, onesController := none, elRemoved := true }

/-- The `CountdownTracker` constructor (src/index.ts:89).  `value` is the
result of `Number(value)`; NaN is replaced by 0 and both wheels are rendered
from the current value.  `animDuration`/`animDirection` are the animation
options after defaulting (duration 600, direction auto). -/
def construct (ttype : TrackerType) (value : JSNum) (animDuration : Int)
    (animDirection : AnimDirection) : TrackerState :=
  let numValue := value
  let currentValue := if jsIsNaN numValue then .int 0 else numValue
  let base : TrackerState :=
    { currentValue := currentValue
      ttype := ttype
      animDuration := animDuration
      animDirection := animDirection
      tensText := ""
      onesText := ""
      tensPending := none
      onesPending := none
      tensDivCount := 1
      onesDivCount := 1
      tensController := none
      onesController := none
      nextControllerId := 1
      warnings := 0
      elRemoved := false }
  setWheelValue .ones currentValue (setWheelValue .tens currentValue base)

end IX

/-- A `TimeObject` produced by the external time source (`getTimeRemaining` /
`getTime`): the signed total and the per-unit values the update loop forwards
to the trackers.  Every unit value is a JavaScript number, so
`typeof value === "number"` always holds for them. -/
structure Breakdown where
  Total : JSNum
  units : List (TimeUnit × JSNum)
deriving DecidableEq

/-- Look up one unit's value in a breakdown. -/
def Breakdown.valueOf (b : Breakdown) (u : TimeUnit) : Option JSNum :=
  (b.units.find? (fun q => decide (q.1 = u))).map (·.2)

namespace IX

/-- `Clock.shouldCompleteCountdown` (src/index.ts:866): the threshold is
`earlyCompletionMs` when seconds are hidden and the option was provided,
otherwise 0; completion is `totalMs < threshold` with JavaScript `<`. -/
def shouldCompleteCountdown (showSeconds : Bool)
    (earlyCompletionMs : Option JSNum) (total : JSNum) : Bool :=
  let threshold : JSNum :=
    if !showSeconds && earlyCompletionMs.isSome then earlyCompletionMs.getD (.int 0)
    else .int 0
  jsLt total threshold

/-- State of a `Clock` of src/index.ts.  `rafPending` records whether a
`requestAnimationFrame` callback is registered (`animationFrameId` is set),
`startDelayPending` whether the initial `setTimeout` of `startUpdateLoop` is
still scheduled (its id is tracked in `animationTimeouts`), and
`callbackCount` how many times the completion callback has been invoked. -/
structure ClockState where
  isCountdown : Bool
  showSeconds : Bool
  earlyCompletionMs : Option JSNum
  trackers : List (TimeUnit × TrackerState)
  isDestroyed : Bool
  rafPending : Bool
  startDelayPending : Bool
  frameCounter : Nat
  isTimeReached : Bool
  callbackCount : Nat
  elRemoved : Bool
deriving DecidableEq

/-- `Clock.updateTrackers` (src/index.ts:898): forward each unit's value from
the breakdown to the matching tracker's `update`. -/
def updateTrackers (b : Breakdown)
    (trackers : List (TimeUnit × TrackerState)) :
    List (TimeUnit × TrackerState) :=
  trackers.map (fun p =>
    match b.valueOf p.1 with
    | some v => (p.1, update v p.2)
    | none => p)

/-- `Clock.handleCountdownComplete` (src/index.ts:881): cancel the pending
animation frame, force every tracker to 0 and invoke the callback. -/
def handleCountdownComplete (s : ClockState) : ClockState :=
  { s with
    rafPending := false
    trackers := s.trackers.map (fun p => (p.1, update (.int 0) p.2))
    callbackCount := s.callbackCount + 1 }

/-- The work part of one tick of `Clock.startUpdateLoop` (src/index.ts:832):
given the freshly computed breakdown, either run the (latched) completion
path or forward the values to the trackers. -/
def clockWork (b : Breakdown) (s : ClockState) : ClockState :=
  if s.isCountdown && shouldCompleteCountdown s.showSeconds s.earlyCompletionMs b.Total then
    if !s.isTimeReached then
      handleCountdownComplete { s with isTimeReached := true }
    else s
  else { s with trackers := updateTrackers b s.trackers }

/-- One invocation of the `update` closure of `Clock.startUpdateLoop`
(src/index.ts:825): bail out when destroyed, otherwise re-register with
`requestAnimationFrame`, bump the frame counter, and do real work only on
every `UPDATE_THROTTLE`-th (10th) frame. -/
def clockFrame (b : Breakdown) (s : ClockState) : ClockState :=
  if s.isDestroyed then { s with rafPending := false }
  else
    let s := { s with rafPending := true, frameCounter := s.frameCounter + 1 }
    if s.frameCounter % 10 ≠ 0 then s
    else clockWork b s

/-- The initial-delay timeout callback of `Clock.startUpdateLoop`
(src/index.ts:846): if it is still scheduled when it fires, it checks the
destroyed flag, forgets its own id and starts the frame loop. -/
def clockFireStartDelay (b : Breakdown) (s : ClockState) : ClockState :=
  if !s.startDelayPending then s
  else if s.isDestroyed then { s with startDelayPending := false }
  else clockFrame b { s with startDelayPending := false }

/-- `Clock.destroy` (src/index.ts:915): set the destroyed flag, cancel the
animation frame, clear the tracked timeouts (including the start-delay
timeout), destroy every tracker and detach the element. -/
def clockDestroy (s : ClockState) : ClockState :=
  { s with
    isDestroyed := true
    rafPending := false
    startDelayPending := false
    trackers := s.trackers.map (fun p => (p.1, destroy p.2))
    elRemoved := true }

end IX

namespace WC

/-- State of a `Clock` of src/wheel-clock.ts.  This variant has no destroyed
flag and no `isTimeReached` latch, and the id of the initial `setTimeout` of
`startUpdateLoop` (src/wheel-clock.ts:695) is never stored anywhere. -/
structure ClockState where
  isCountdown : Bool
  trackers : List (TimeUnit × TrackerState)
  rafPending : Bool
  startDelayPending : Bool
  frameCounter : Nat
  callbackCount : Nat
  elRemoved : Bool
deriving DecidableEq

/-- `Clock.updateTrackers` (src/wheel-clock.ts:728). -/
def updateTrackersWC (b : Breakdown)
    (trackers : List (TimeUnit × TrackerState)) :
    List (TimeUnit × TrackerState) :=
  trackers.map (fun p =>
    match b.valueOf p.1 with
    | some v => (p.1, update v p.2)
    | none => p)

/-- The work part of one tick of `Clock.startUpdateLoop`
(src/wheel-clock.ts:682): on countdown completion (`Total < 0`) cancel the
animation frame, force the trackers to 0 and fire the callback; otherwise
forward the breakdown to the trackers. -/
def clockWorkWC (b : Breakdown) (s : ClockState) : ClockState :=
  if s.isCountdown && jsLt b.Total (.int 0) then
    { s with
      rafPending := false
      trackers := s.trackers.map (fun p => (p.1, update (.int 0) p.2))
      callbackCount := s.callbackCount + 1 }
  else { s with trackers := updateTrackersWC b s.trackers }

/-- One invocation of the `update` closure of `Clock.startUpdateLoop`
(src/wheel-clock.ts:676): re-register with `requestAnimationFrame`, bump the
frame counter, throttle to every 10th frame.  There is no destroyed check. -/
def clockFrameWC (b : Breakdown) (s : ClockState) : ClockState :=
  let s := { s with rafPending := true, frameCounter := s.frameCounter + 1 }
  if s.frameCounter % 10 ≠ 0 then s
  else clockWorkWC b s

/-- The initial-delay timeout of `Clock.startUpdateLoop`
(src/wheel-clock.ts:695) firing: it simply runs the update closure.  Nothing
guards it and nothing can cancel it, since its id is discarded. -/
def clockFireStartDelayWC (b : Breakdown) (s : ClockState) : ClockState :=
  if s.startDelayPending then clockFrameWC b { s with startDelayPending := false }
  else s

/-- `Clock.destroy` (src/wheel-clock.ts:750): cancel the animation frame,
destroy every tracker, clear the tracker map and detach the element.  The
start-delay timeout is left pending because its id was never stored. -/
def clockDestroyWC (s : ClockState) : ClockState :=
  { s with
    rafPending := false
    trackers := s.trackers.map (fun p => (p.1, destroy p.2))
    elRemoved := true }

end WC

/-- Claim C7 counterexample input: a freshly constructed src/wheel-clock.ts
countdown clock, still inside its 500ms start delay (the `setTimeout` of
`startUpdateLoop` is pending and the frame loop has not started). -/
def wcClockEx : WC.ClockState :=
  { isCountdown := true
    trackers := [(.Minutes, WC.construct .Minutes (.int 5))]
    rafPending := false
    startDelayPending := true
    frameCounter := 0
    callbackCount := 0
    elRemoved := false }

/-- Breakdown delivered by the time source in the C7 counterexample. -/
def bEx : Breakdown :=
  { Total := .int 500000, units := [(.Minutes, .int 7)] }

/-- A src/index.ts countdown clock whose target lies in the past, used to
instantiate the completion-latch theorem: two trackers at nonzero values, the
completion latch not yet set, and the frame loop running. -/
def ixClockEx : IX.ClockState :=
  { isCountdown := true
    showSeconds := true
    earlyCompletionMs := none
    trackers := [(.Minutes, IX.construct .countdown (.int 3) 600 .auto),
                 (.Hours, IX.construct .countdown (.int 1) 600 .auto)]
    isDestroyed := false
    rafPending := true
    startDelayPending := false
    frameCounter := 10
    isTimeReached := false
    callbackCount := 0
    elRemoved := false }

/-- Breakdown of a countdown target one second in the past. -/
def bPast : Breakdown :=
  { Total := .int (-1000), units := [(.Minutes, .int 0), (.Hours, .int 0)] }

/-- A sequence of `update` calls on a src/wheel-clock.ts tracker. -/
def updateRun (vals : List JSNum) (s : WC.TrackerState) : WC.TrackerState :=
  vals.foldl (fun s v => WC.update v s) s

/-- A sequence of work ticks of a src/index.ts clock. -/
def clockWorkRun (bs : List Breakdown) (s : IX.ClockState) : IX.ClockState :=
  bs.foldl (fun s b => IX.clockWork b s) s

/-- Every tracker of a src/index.ts clock currently shows value 0. -/
def allTrackersZero (l : List (TimeUnit × IX.TrackerState)) : Bool :=
  l.all (fun p => p.2.currentValue == JSNum.int 0)

/-- Claim C1: for a tracker whose unit is Seconds or Minutes, resolving a
digit transition whose whole-unit values are old=59,new=0 yields direction
up (`true`), and old=0,new=59 yields down (`false`); for Hours, 23→0 yields
up and 0→23 yields down — for every pair of digit-level values, because the
unit-level wraparound check `WC.getTimeUnitCycleInfo` takes precedence inside
`WC.getWheelDirection`. -/
theorem wrapPair_direction_precedence (oldDigit newDigit : Nat) :
    WC.getWheelDirection .Seconds oldDigit newDigit (.int 59) (.int 0) = true ∧
    WC.getWheelDirection .Minutes oldDigit newDigit (.int 59) (.int 0) = true ∧
    WC.getWheelDirection .Seconds oldDigit newDigit (.int 0) (.int 59) = false ∧
    WC.getWheelDirection .Minutes oldDigit newDigit (.int 0) (.int 59) = false ∧
    WC.getWheelDirection .Hours oldDigit newDigit (.int 23) (.int 0) = true ∧
    WC.getWheelDirection .Hours oldDigit newDigit (.int 0) (.int 23) = false :=
  ⟨rfl, rfl, rfl, rfl, rfl, rfl⟩

/-- Claim C2 counterexample: a tracker built at value 5 and then destroyed is
not protected against further updates — `update(6)` still changes the
displayed ones digit, stores the new current value, and schedules a brand-new
animation timeout, so update-after-destroy is not a no-op. -/
theorem update_after_destroy_mutates :
    (WC.update (.int 6) (WC.destroy (WC.construct .Seconds (.int 5)))).onesValue ≠
      (WC.destroy (WC.construct .Seconds (.int 5))).onesValue ∧
    (WC.update (.int 6) (WC.destroy (WC.construct .Seconds (.int 5)))).currentValue =
      .int 6 ∧
    (WC.update (.int 6) (WC.destroy (WC.construct .Seconds (.int 5)))).pendingTimers.length =
      1 := by
  decide

/-- Claim C2 amended: `update` after `destroy` never throws (both operations
are total), but it is not a no-op: neither tracker variant records a
destroyed flag, so an update with a changed value still mutates the current
value and the displayed digit and creates a fresh animation handle (a
`setTimeout` in src/wheel-clock.ts, an `AbortController` plus an extra value
div in src/index.ts).  Only the `Clock` carries a destroyed guard. -/
theorem update_after_destroy_behavior (label : TimeUnit) :
    (WC.update (.int 6) (WC.destroy (WC.construct label (.int 5)))).currentValue =
      .int 6 ∧
    (WC.update (.int 6) (WC.destroy (WC.construct label (.int 5)))).onesValue = 6 ∧
    (WC.update (.int 6) (WC.destroy (WC.construct label (.int 5)))).pendingTimers.length =
      1 ∧
    (IX.update (.int 6) (IX.destroy (IX.construct .countdown (.int 5) 600 .auto))).currentValue =
      .int 6 ∧
    (IX.update (.int 6) (IX.destroy (IX.construct .countdown (.int 5) 600 .auto))).onesController.isSome =
      true ∧
    (IX.update (.int 6) (IX.destroy (IX.construct .countdown (.int 5) 600 .auto))).onesDivCount =
      2 := by
  cases label <;> decide

/-- Claim C3 counterexample: on the src/index.ts tracker an out-of-range
value is NOT applied: `update(10000)` on a tracker currently at 5 leaves the
current value at 5 (and only bumps the warning count), so the update is
dropped with a warning rather than applied with a warning. -/
theorem out_of_range_update_dropped :
    (IX.update (.int 10000) (IX.construct .countdown (.int 5) 600 .auto)).currentValue =
      .int 5 ∧
    (IX.update (.int 10000) (IX.construct .countdown (.int 5) 600 .auto)).warnings =
      1 := by
  decide

/-- Claim C3 amended: the two variants disagree with the claimed
accept-with-warning policy.  The src/index.ts `update` rejects NaN, negative
and `> 9999` values: it emits a `console.warn` and leaves the tracker state
otherwise untouched.  The src/wheel-clock.ts `update` performs no validation
at all: it applies any changed numeric value (here 10000) and emits no
warning (it has no warning path). -/
theorem out_of_range_update_policy (t : IX.TrackerState) :
    IX.update (.int 10000) t = { t with warnings := t.warnings + 1 } ∧
    IX.update (.int (-1)) t = { t with warnings := t.warnings + 1 } ∧
    IX.update .nan t = { t with warnings := t.warnings + 1 } ∧
    IX.update .posInf t = { t with warnings := t.warnings + 1 } ∧
    (WC.update (.int 10000) (WC.construct .Seconds (.int 5))).currentValue =
      .int 10000 :=
  ⟨rfl, rfl, rfl, rfl, by decide⟩

/-- Claim C5: evaluation of `Clock.shouldCompleteCountdown` at the disputed
input.  With seconds hidden and `earlyCompletionMs` left at its default
(`undefined`), a signed total of 45000ms does NOT declare completion — the
code only uses a nonzero threshold when the option is explicitly provided —
while the claim (and the README's Early Completion section) expect the
~60000ms default threshold to declare completion.  With seconds shown the
threshold is 0 as claimed, and an explicit 60000ms threshold does complete. -/
theorem default_threshold_no_early_completion :
    IX.shouldCompleteCountdown false none (.int 45000) = false ∧
    IX.shouldCompleteCountdown true none (.int 45000) = false ∧
    IX.shouldCompleteCountdown false (some (.int 60000)) (.int 45000) = true := by
  decide

/-- `jsLt` with NaN on the left is false for every right operand. -/
theorem jsLt_nan_left (b : JSNum) : jsLt .nan b = false := by
  cases b <;> rfl

/-- Claim C8: a work tick whose breakdown has a NaN signed total never
declares completion: `Clock.shouldCompleteCountdown` (src/index.ts) returns
false for every seconds setting and every `earlyCompletionMs` value, and the
src/wheel-clock.ts completion branch (`Total < 0`) is likewise never taken,
leaving the callback count unchanged.  Both checks are total functions, so
nothing throws. -/
theorem nan_total_never_completes (showSeconds : Bool)
    (earlyCompletionMs : Option JSNum) (units : List (TimeUnit × JSNum))
    (s : WC.ClockState) :
    IX.shouldCompleteCountdown showSeconds earlyCompletionMs .nan = false ∧
    (WC.clockWorkWC { Total := .nan, units := units } s).callbackCount =
      s.callbackCount := by
  constructor
  · simp [IX.shouldCompleteCountdown, jsLt_nan_left]
  · simp [WC.clockWorkWC, jsLt]

/-- Claim C9 counterexample: `-1` does not format to `"00"`: the
src/wheel-clock.ts `formatValue` yields `"-1"` (which parses to the digit
pair (0, 1)), and the src/index.ts `formatValue` yields `"0-1"`. -/
theorem format_neg_one_not_00 :
    WC.formatValue (.int (-1)) ≠ "00" ∧
    WC.formatValue (.int (-1)) = "-1" ∧
    WC.parseDigits (WC.formatValue (.int (-1))) = (0, 1) ∧
    IX.formatValue (.int (-1)) = "0-1" := by
  decide

/-- Claim C9 amended: formatting 5 gives `"05"` which parses to (0,5);
123 gives `"123"` whose last two characters give (2,3); NaN gives `"00"`
parsing to (0,0).  But `-1` is not normalised to `"00"`: src/wheel-clock.ts
formats it to `"-1"`, parsed (with the NaN-to-0 safety net) as (0,1), and
src/index.ts formats it to `"0-1"`, parsed as (NaN, 1) since that variant has
no NaN safety net. -/
theorem digit_pair_extraction :
    WC.formatValue (.int 5) = "05" ∧ WC.parseDigits "05" = (0, 5) ∧
    WC.formatValue (.int 123) = "123" ∧ WC.parseDigits "123" = (2, 3) ∧
    WC.formatValue .nan = "00" ∧ WC.parseDigits "00" = (0, 0) ∧
    WC.formatValue (.int (-1)) = "-1" ∧ WC.parseDigits "-1" = (0, 1) ∧
    IX.formatValue (.int 5) = "05" ∧ IX.parseDigits "05" = (some 0, some 5) ∧
    IX.formatValue (.int 123) = "123" ∧ IX.parseDigits "123" = (some 2, some 3) ∧
    IX.formatValue .nan = "00" ∧ IX.parseDigits "00" = (some 0, some 0) ∧
    IX.formatValue (.int (-1)) = "0-1" ∧ IX.parseDigits "0-1" = (none, some 1) := by
  decide

/-- Claim C10 counterexample: the string `"Infinity"` coerces to the
non-finite number `Infinity`, which is not NaN, so the constructor stores it
as the current value instead of 0 (and the src/index.ts variant even renders
the digit text `"NaN"`). -/
theorem construct_infinity_not_zero :
    (WC.construct .Seconds .posInf).currentValue ≠ .int 0 ∧
    (WC.construct .Seconds .posInf).currentValue = .posInf ∧
    (IX.construct .countdown .posInf 600 .auto).tensText = "NaN" := by
  decide

/-- Claim C10 amended: for every value that coerces to NaN (e.g. a
non-numeric string), both tracker constructors initialise the current value
to 0 and render the digits of `"00"`, and neither throws (they are total
functions).  Values coercing to ±Infinity, however, are stored unchanged:
only NaN is normalised. -/
theorem construct_nan_defaults_zero (label : TimeUnit) :
    (WC.construct label .nan).currentValue = .int 0 ∧
    (WC.construct label .nan).tensValue = 0 ∧
    (WC.construct label .nan).onesValue = 0 ∧
    (IX.construct .countdown .nan 600 .auto).currentValue = .int 0 ∧
    (IX.construct .countdown .nan 600 .auto).tensText = "0" ∧
    (IX.construct .countdown .nan 600 .auto).onesText = "0" := by
  cases label <;> decide

/-- Claim C7 counterexample: `Clock.destroy` of src/wheel-clock.ts never
stores the start-delay `setTimeout` id, so destroying the clock before the
delay fires leaves that timer pending; when it then fires, it re-registers
the animation-frame loop, and the 10th frame performs work that mutates the
(destroyed) tracker to the fresh minutes value and even schedules a new
animation timeout on it. -/
theorem wc_destroy_leaves_start_timer :
    (WC.clockDestroyWC wcClockEx).startDelayPending = true ∧
    (WC.clockFireStartDelayWC bEx (WC.clockDestroyWC wcClockEx)).rafPending = true ∧
    (Nat.iterate (WC.clockFrameWC bEx) 9
        (WC.clockFireStartDelayWC bEx (WC.clockDestroyWC wcClockEx))).trackers.map
        (fun p => p.2.currentValue) = [.int 7] ∧
    (Nat.iterate (WC.clockFrameWC bEx) 9
        (WC.clockFireStartDelayWC bEx (WC.clockDestroyWC wcClockEx))).trackers.map
        (fun p => p.2.pendingTimers.length) = [1] := by
  decide

/-- Claim C7 amended: the src/index.ts `Clock.destroy` does behave as
claimed: it clears the start-delay timeout (tracked in `animationTimeouts`)
and the animation-frame registration, and any callback that might still fire
observes the destroyed flag and leaves the state untouched.  The
src/wheel-clock.ts `Clock.destroy` does not: it cannot cancel the start-delay
timer because the timer id was never stored, so a pre-destroy start timer can
still run work afterwards. -/
theorem ix_destroy_cancels_timers (s : IX.ClockState) (b : Breakdown) :
    (IX.clockDestroy s).startDelayPending = false ∧
    (IX.clockDestroy s).rafPending = false ∧
    IX.clockFireStartDelay b (IX.clockDestroy s) = IX.clockDestroy s ∧
    IX.clockFrame b (IX.clockDestroy s) = IX.clockDestroy s :=
  ⟨rfl, rfl, rfl, rfl⟩

namespace WC

/-- Removing a timer id filters exactly that id out of a slot's id list. -/
theorem slotIds_removeTimer (a : Nat) (w : WheelType) (l : List (Nat × WheelType)) :
    slotIds (removeTimer a l) w = (slotIds l w).filter (fun x => decide (x ≠ a)) := by
  induction l with
  | nil => rfl
  | cons p l ih =>
    by_cases h1 : p.1 = a <;> by_cases h2 : p.2 = w <;>
      simp [removeTimer, slotIds, h1, h2, List.filter_cons, ih]

/-- Appending timers appends their slot id lists. -/
theorem slotIds_append (l1 l2 : List (Nat × WheelType)) (w : WheelType) :
    slotIds (l1 ++ l2) w = slotIds l1 w ++ slotIds l2 w := by
  induction l1 with
  | nil => rfl
  | cons p l1 ih =>
    by_cases h2 : p.2 = w <;> simp [slotIds, h2, ih]

/-- An id in a slot's id list stems from an outstanding timer for that slot. -/
theorem mem_of_mem_slotIds {x : Nat} {l : List (Nat × WheelType)} {w : WheelType}
    (h : x ∈ slotIds l w) : (x, w) ∈ l := by
  induction l with
  | nil => simp [slotIds] at h
  | cons p l ih =>
    by_cases h2 : p.2 = w
    · rw [slotIds, if_pos h2] at h
      rcases List.mem_cons.mp h with h | h
      · subst h
        have hpw : (p.1, w) = p := by rw [← h2]
        rw [hpw]
        exact List.mem_cons_self p l
      · exact List.mem_cons_of_mem p (ih h)
    · rw [slotIds, if_neg h2] at h
      exact List.mem_cons_of_mem p (ih h)

/-- Surviving a `removeTimer a` means the id differs from `a`. -/
theorem fst_ne_of_mem_removeTimer {p : Nat × WheelType} {a : Nat}
    {l : List (Nat × WheelType)} (h : p ∈ removeTimer a l) : p.1 ≠ a := by
  induction l with
  | nil => simp [removeTimer] at h
  | cons q l ih =>
    by_cases h1 : q.1 = a
    · rw [removeTimer, if_pos h1] at h
      exact ih h
    · rw [removeTimer, if_neg h1] at h
      rcases List.mem_cons.mp h with h | h
      · rw [h]; exact h1
      · exact ih h

/-- Removed timers were outstanding before. -/
theorem mem_of_mem_removeTimer {p : Nat × WheelType} {a : Nat}
    {l : List (Nat × WheelType)} (h : p ∈ removeTimer a l) : p ∈ l := by
  induction l with
  | nil => simp [removeTimer] at h
  | cons q l ih =>
    by_cases h1 : q.1 = a
    · rw [removeTimer, if_pos h1] at h
      exact List.mem_cons_of_mem q (ih h)
    · rw [removeTimer, if_neg h1] at h
      rcases List.mem_cons.mp h with h | h
      · rw [h]; exact List.mem_cons_self q l
      · exact List.mem_cons_of_mem q (ih h)

end WC

namespace WC

/-- One `updateWheel` call preserves the timer-bookkeeping invariant: it
either leaves the slot alone or replaces the slot's (at most one) outstanding
cleanup timer by a single fresh one. -/
theorem timerInv_updateWheel (w : WheelType) (ov nv : JSNum) {s : TrackerState}
    (h : TimerInv s) : TimerInv (updateWheel w ov nv s) := by
  obtain ⟨h1, h2, h3, h4⟩ := h
  simp only [updateWheel]
  split
  · exact ⟨h1, h2, h3, h4⟩
  · cases w with
    | tens =>
      cases htt : s.tensTimeout with
      | none =>
        simp only [setWheelDataValue, TrackerState.setValueOf, clearAnimationTimeout,
          TrackerState.timeoutOf, TrackerState.setTimeoutOf, TrackerState.setClassOf, htt]
        refine ⟨?_, ?_, ?_, ?_⟩
        · simp only [slotTimers] at h1 ⊢
          rw [slotIds_append, h1, htt]
          simp [slotIds, Option.toList]
        · simp only [slotTimers] at h2 ⊢
          rw [slotIds_append, h2]
          simp [slotIds]
        · intro p hp
          rcases List.mem_append.mp hp with hp | hp
          · exact Nat.lt_succ_of_lt (h3 p hp)
          · rw [List.mem_singleton.mp hp]
            exact Nat.lt_succ_self _
        · refine Or.inr ?_
          cases hbt : s.onesTimeout with
          | none => simp
          | some b =>
            have hb : (b, WheelType.ones) ∈ s.pendingTimers := by
              apply mem_of_mem_slotIds
              simp only [slotTimers] at h2
              rw [h2, hbt]
              simp [Option.toList]
            have hlt : b < s.nextTimerId := h3 _ hb
            simp only [ne_eq, Option.some.injEq]
            omega
      | some a =>
        simp only [setWheelDataValue, TrackerState.setValueOf, clearAnimationTimeout,
          TrackerState.timeoutOf, TrackerState.setTimeoutOf, TrackerState.setClassOf, htt]
        refine ⟨?_, ?_, ?_, ?_⟩
        · simp only [slotTimers] at h1 ⊢
          rw [slotIds_append, slotIds_removeTimer, h1, htt]
          simp [slotIds, Option.toList, List.filter_cons]
        · simp only [slotTimers] at h2 ⊢
          rw [slotIds_append, slotIds_removeTimer, h2]
          cases hbt : s.onesTimeout with
          | none => simp [slotIds, Option.toList]
          | some b =>
            have hne : b ≠ a := by
              rcases h4 with h4 | h4
              · rw [htt] at h4
                exact absurd h4 (by simp)
              · rw [htt, hbt] at h4
                intro hba
                rw [hba] at h4
                exact h4 rfl
            simp [slotIds, Option.toList, List.filter_cons, hne]
        · intro p hp
          rcases List.mem_append.mp hp with hp | hp
          · exact Nat.lt_succ_of_lt (h3 p (mem_of_mem_removeTimer hp))
          · rw [List.mem_singleton.mp hp]
            exact Nat.lt_succ_self _
        · refine Or.inr ?_
          cases hbt : s.onesTimeout with
          | none => simp
          | some b =>
            have hb : (b, WheelType.ones) ∈ s.pendingTimers := by
              apply mem_of_mem_slotIds
              simp only [slotTimers] at h2
              rw [h2, hbt]
              simp [Option.toList]
            have hlt : b < s.nextTimerId := h3 _ hb
            simp only [ne_eq, Option.some.injEq]
            omega
    | ones =>
      cases hot : s.onesTimeout with
      | none =>
        simp only [setWheelDataValue, TrackerState.setValueOf, clearAnimationTimeout,
          TrackerState.timeoutOf, TrackerState.setTimeoutOf, TrackerState.setClassOf, hot]
        refine ⟨?_, ?_, ?_, ?_⟩
        · simp only [slotTimers] at h1 ⊢
          rw [slotIds_append, h1]
          simp [slotIds]
        · simp only [slotTimers] at h2 ⊢
          rw [slotIds_append, h2, hot]
          simp [slotIds, Option.toList]
        · intro p hp
          rcases List.mem_append.mp hp with hp | hp
          · exact Nat.lt_succ_of_lt (h3 p hp)
          · rw [List.mem_singleton.mp hp]
            exact Nat.lt_succ_self _
        · cases hat : s.tensTimeout with
          | none => exact Or.inl rfl
          | some a =>
            refine Or.inr ?_
            have ha : (a, WheelType.tens) ∈ s.pendingTimers := by
              apply mem_of_mem_slotIds
              simp only [slotTimers] at h1
              rw [h1, hat]
              simp [Option.toList]
            have hlt : a < s.nextTimerId := h3 _ ha
            simp only [ne_eq, Option.some.injEq]
            omega
      | some a =>
        simp only [setWheelDataValue, TrackerState.setValueOf, clearAnimationTimeout,
          TrackerState.timeoutOf, TrackerState.setTimeoutOf, TrackerState.setClassOf, hot]
        refine ⟨?_, ?_, ?_, ?_⟩
        · simp only [slotTimers] at h1 ⊢
          rw [slotIds_append, slotIds_removeTimer, h1]
          cases hat : s.tensTimeout with
          | none => simp [slotIds, Option.toList]
          | some b =>
            have hne : b ≠ a := by
              rcases h4 with h4 | h4
              · rw [hat] at h4
                exact absurd h4 (by simp)
              · rw [hat, hot] at h4
                intro hba
                rw [hba] at h4
                exact h4 rfl
            simp [slotIds, Option.toList, List.filter_cons, hne]
        · simp only [slotTimers] at h2 ⊢
          rw [slotIds_append, slotIds_removeTimer, h2, hot]
          simp [slotIds, Option.toList, List.filter_cons]
        · intro p hp
          rcases List.mem_append.mp hp with hp | hp
          · exact Nat.lt_succ_of_lt (h3 p (mem_of_mem_removeTimer hp))
          · rw [List.mem_singleton.mp hp]
            exact Nat.lt_succ_self _
        · cases hat : s.tensTimeout with
          | none => exact Or.inl rfl
          | some b =>
            refine Or.inr ?_
            have hb : (b, WheelType.tens) ∈ s.pendingTimers := by
              apply mem_of_mem_slotIds
              simp only [slotTimers] at h1
              rw [h1, hat]
              simp [Option.toList]
            have hlt : b < s.nextTimerId := h3 _ hb
            simp only [ne_eq, Option.some.injEq]
            omega

end WC

namespace WC

/-- `update` preserves the timer-bookkeeping invariant: it only touches the
timers through `updateWheel` on each slot. -/
theorem timerInv_update (v : JSNum) {s : TrackerState} (h : TimerInv s) :
    TimerInv (update v s) := by
  simp only [update]
  split
  · apply timerInv_updateWheel
    apply timerInv_updateWheel
    split
    · exact ⟨h.1, h.2.1, h.2.2.1, h.2.2.2⟩
    · exact ⟨h.1, h.2.1, h.2.2.1, h.2.2.2⟩
  · exact h

/-- A freshly constructed tracker satisfies the invariant: no timers at all. -/
theorem timerInv_construct (label : TimeUnit) (v : JSNum) :
    TimerInv (construct label v) := by
  refine ⟨rfl, rfl, ?_, Or.inl rfl⟩
  intro p hp
  exact absurd hp (List.not_mem_nil p)

end WC

/-- Any sequence of `update` calls from a fresh tracker keeps the timer
invariant. -/
theorem timerInv_updateRun (vals : List JSNum) :
    ∀ {s : WC.TrackerState}, WC.TimerInv s → WC.TimerInv (updateRun vals s) := by
  induction vals with
  | nil => intro s h; exact h
  | cons v vs ih =>
    intro s h
    exact ih (WC.timerInv_update v h)

/-- An optional value's list has at most one element. -/
theorem option_toList_length_le (o : Option Nat) : o.toList.length ≤ 1 := by
  cases o <;> simp [Option.toList]

/-- When a slot's digit changes while a cleanup timer for that slot is
outstanding, `updateWheel` replaces it: afterwards the slot's map entry and
its outstanding timers are exactly the fresh id, and the old handle is gone. -/
theorem updateWheel_replaces_handle (w : WheelType) (ov nv : JSNum)
    {s : WC.TrackerState} {hid : Nat}
    (hinv : WC.TimerInv s) (ht : s.timeoutOf w = some hid)
    (hd : digitOf w (WC.parseDigits (WC.formatValue ov)) ≠
      digitOf w (WC.parseDigits (WC.formatValue nv))) :
    (WC.updateWheel w ov nv s).timeoutOf w = some s.nextTimerId ∧
    WC.slotTimers (WC.updateWheel w ov nv s) w = [s.nextTimerId] ∧
    (hid, w) ∉ (WC.updateWheel w ov nv s).pendingTimers := by
  obtain ⟨h1, h2, h3, h4⟩ := hinv
  cases w with
  | tens =>
    simp only [WC.TrackerState.timeoutOf] at ht
    have hmemid : (hid, WheelType.tens) ∈ s.pendingTimers := by
      apply WC.mem_of_mem_slotIds
      simp only [WC.slotTimers] at h1
      rw [h1, ht]
      simp [Option.toList]
    have hidlt : hid < s.nextTimerId := h3 _ hmemid
    simp only [WC.updateWheel, WC.setWheelDataValue, WC.TrackerState.setValueOf,
      WC.clearAnimationTimeout, WC.TrackerState.timeoutOf, WC.TrackerState.setTimeoutOf,
      WC.TrackerState.setClassOf, ht, if_neg hd]
    refine ⟨trivial, ?_, ?_⟩
    · simp only [WC.slotTimers]
      rw [WC.slotIds_append, WC.slotIds_removeTimer]
      simp only [WC.slotTimers] at h1
      rw [h1, ht]
      simp [WC.slotIds, Option.toList, List.filter_cons]
    · intro hmem
      rcases List.mem_append.mp hmem with hm | hm
      · exact WC.fst_ne_of_mem_removeTimer hm rfl
      · have heq : hid = s.nextTimerId := congrArg Prod.fst (List.mem_singleton.mp hm)
        omega
  | ones =>
    simp only [WC.TrackerState.timeoutOf] at ht
    have hmemid : (hid, WheelType.ones) ∈ s.pendingTimers := by
      apply WC.mem_of_mem_slotIds
      simp only [WC.slotTimers] at h2
      rw [h2, ht]
      simp [Option.toList]
    have hidlt : hid < s.nextTimerId := h3 _ hmemid
    simp only [WC.updateWheel, WC.setWheelDataValue, WC.TrackerState.setValueOf,
      WC.clearAnimationTimeout, WC.TrackerState.timeoutOf, WC.TrackerState.setTimeoutOf,
      WC.TrackerState.setClassOf, ht, if_neg hd]
    refine ⟨trivial, ?_, ?_⟩
    · simp only [WC.slotTimers]
      rw [WC.slotIds_append, WC.slotIds_removeTimer]
      simp only [WC.slotTimers] at h2
      rw [h2, ht]
      simp [WC.slotIds, Option.toList, List.filter_cons]
    · intro hmem
      rcases List.mem_append.mp hmem with hm | hm
      · exact WC.fst_ne_of_mem_removeTimer hm rfl
      · have heq : hid = s.nextTimerId := congrArg Prod.fst (List.mem_singleton.mp hm)
        omega

/-- Claim C4: each digit slot of a src/wheel-clock.ts tracker holds at most
one active animation handle after any sequence of `update` calls, and an
update that changes a slot's digit while a previous transition is in flight
cancels the old handle before starting the new one within the same call: the
host-call trace is `clearTimeout(old)` then `setTimeout(new)`, and afterwards
the slot's only outstanding handle is the fresh one, the old handle being
released. -/
theorem slot_single_handle_and_cancel_before_start :
    (∀ (label : TimeUnit) (v0 : JSNum) (vals : List JSNum),
      (WC.slotTimers (updateRun vals (WC.construct label v0)) .tens).length ≤ 1 ∧
      (WC.slotTimers (updateRun vals (WC.construct label v0)) .ones).length ≤ 1) ∧
    (∀ (s : WC.TrackerState) (w : WheelType) (ov nv : JSNum) (hid : Nat),
      WC.TimerInv s →
      s.timeoutOf w = some hid →
      digitOf w (WC.parseDigits (WC.formatValue ov)) ≠
        digitOf w (WC.parseDigits (WC.formatValue nv)) →
      WC.updateWheelTrace w ov nv s =
        [WC.AnimAction.cancelTimeout hid, WC.AnimAction.startTimeout s.nextTimerId] ∧
      (WC.updateWheel w ov nv s).timeoutOf w = some s.nextTimerId ∧
      WC.slotTimers (WC.updateWheel w ov nv s) w = [s.nextTimerId] ∧
      (hid, w) ∉ (WC.updateWheel w ov nv s).pendingTimers) := by
  constructor
  · intro label v0 vals
    have hinv := timerInv_updateRun vals (WC.timerInv_construct label v0)
    constructor
    · rw [hinv.1]
      exact option_toList_length_le _
    · rw [hinv.2.1]
      exact option_toList_length_le _
  · intro s w ov nv hid hinv ht hd
    have hrep := updateWheel_replaces_handle w ov nv hinv ht hd
    refine ⟨?_, hrep.1, hrep.2.1, hrep.2.2⟩
    simp only [WC.updateWheelTrace]
    rw [if_neg hd, ht]
    rfl

/-- Witness for the single-handle theorem: a Seconds tracker built at 0 and
updated to 1 then 2 keeps at most one handle per slot, and the 1→2 update on
the ones wheel (whose cleanup timer id 1 is in flight) cancels id 1 before
starting id 2. -/
theorem slot_single_handle_witness :
    ((WC.slotTimers (updateRun [JSNum.int 1, JSNum.int 2]
        (WC.construct .Seconds (.int 0))) .tens).length ≤ 1 ∧
     (WC.slotTimers (updateRun [JSNum.int 1, JSNum.int 2]
        (WC.construct .Seconds (.int 0))) .ones).length ≤ 1) ∧
    (WC.updateWheelTrace .ones (.int 1) (.int 2)
        (WC.update (.int 1) (WC.construct .Seconds (.int 0))) =
      [WC.AnimAction.cancelTimeout 1,
       WC.AnimAction.startTimeout
         (WC.update (.int 1) (WC.construct .Seconds (.int 0))).nextTimerId] ∧
     (WC.updateWheel .ones (.int 1) (.int 2)
        (WC.update (.int 1) (WC.construct .Seconds (.int 0)))).timeoutOf .ones =
      some (WC.update (.int 1) (WC.construct .Seconds (.int 0))).nextTimerId ∧
     WC.slotTimers (WC.updateWheel .ones (.int 1) (.int 2)
        (WC.update (.int 1) (WC.construct .Seconds (.int 0)))) .ones =
      [(WC.update (.int 1) (WC.construct .Seconds (.int 0))).nextTimerId] ∧
     (1, WheelType.ones) ∉ (WC.updateWheel .ones (.int 1) (.int 2)
        (WC.update (.int 1) (WC.construct .Seconds (.int 0)))).pendingTimers) :=
  ⟨slot_single_handle_and_cancel_before_start.1 .Seconds (.int 0) [.int 1, .int 2],
   slot_single_handle_and_cancel_before_start.2
     (WC.update (.int 1) (WC.construct .Seconds (.int 0))) .ones (.int 1) (.int 2) 1
     ⟨by decide, by decide, by decide, by decide⟩ (by decide) (by decide)⟩

namespace IX

/-- `animateWheelTransition` never touches the stored current value. -/
theorem animateWheelTransition_currentValue (w : WheelType) (nd : Option Nat)
    (dir : Bool) (s : TrackerState) :
    (animateWheelTransition w nd dir s).currentValue = s.currentValue := by
  cases w <;> rfl

/-- `setWheelValue` never touches the stored current value. -/
theorem setWheelValue_currentValue (w : WheelType) (tv : JSNum)
    (s : TrackerState) :
    (setWheelValue w tv s).currentValue = s.currentValue := by
  cases w <;> rfl

/-- `cancelWheelAnimation` never touches the stored current value. -/
theorem cancelWheelAnimation_currentValue (w : WheelType) (s : TrackerState) :
    (cancelWheelAnimation w s).currentValue = s.currentValue := by
  cases w with
  | tens =>
    cases h : s.tensController <;>
      simp only [cancelWheelAnimation, TrackerState.controllerOf,
        TrackerState.setControllerOf, TrackerState.divCountOf,
        TrackerState.setDivCountOf, TrackerState.setPendingOf, h] <;>
      split <;> rfl
  | ones =>
    cases h : s.onesController <;>
      simp only [cancelWheelAnimation, TrackerState.controllerOf,
        TrackerState.setControllerOf, TrackerState.divCountOf,
        TrackerState.setDivCountOf, TrackerState.setPendingOf, h] <;>
      split <;> rfl

/-- `updateWheel` never touches the stored current value. -/
theorem updateWheel_currentValue (w : WheelType) (od nd : Option Nat)
    (s : TrackerState) :
    (updateWheel w od nd s).currentValue = s.currentValue := by
  simp only [updateWheel]
  split
  · rfl
  · split
    · rw [animateWheelTransition_currentValue, cancelWheelAnimation_currentValue]
    · rw [setWheelValue_currentValue, cancelWheelAnimation_currentValue]

end IX

/-- Strict equality against an integer pins the other operand. -/
theorem eq_int_of_jsStrictEq {a : Int} {b : JSNum}
    (h : jsStrictEq (.int a) b = true) : b = .int a := by
  cases b <;> simp [jsStrictEq, decide_eq_true_eq] at h ⊢
  exact h.symm

/-- `tracker.update(0)` always leaves the current value at 0: zero passes the
range guard, and either the tracker already showed 0 or the value is stored. -/
theorem update_zero_currentValue (t : IX.TrackerState) :
    (IX.update (.int 0) t).currentValue = .int 0 := by
  simp only [IX.update]
  split
  · next h => exact absurd h (by decide)
  · split
    · next h => exact eq_int_of_jsStrictEq h
    · rw [IX.updateWheel_currentValue, IX.updateWheel_currentValue]

/-- Once the completion latch is set, a work tick that still observes
completion does nothing at all. -/
theorem clockWork_latched {s : IX.ClockState} (b : Breakdown)
    (hc : s.isCountdown = true) (hl : s.isTimeReached = true)
    (hb : IX.shouldCompleteCountdown s.showSeconds s.earlyCompletionMs b.Total = true) :
    IX.clockWork b s = s := by
  unfold IX.clockWork
  rw [hc, hb]
  simp [hl]

/-- Iterating work ticks that all observe completion on a latched clock is a
no-op. -/
theorem clockWorkRun_latched (bs : List Breakdown) :
    ∀ (s : IX.ClockState), s.isCountdown = true → s.isTimeReached = true →
    (∀ b ∈ bs, IX.shouldCompleteCountdown s.showSeconds s.earlyCompletionMs b.Total = true) →
    clockWorkRun bs s = s := by
  induction bs with
  | nil => intro s _ _ _; rfl
  | cons b bs ih =>
    intro s hc hl hall
    have hstep : IX.clockWork b s = s :=
      clockWork_latched b hc hl (hall b (List.mem_cons_self b bs))
    show clockWorkRun bs (IX.clockWork b s) = s
    rw [hstep]
    exact ih s hc hl fun b' hb' => hall b' (List.mem_cons_of_mem b hb')

/-- Claim C6: for a src/index.ts countdown clock whose target is in the past
(every work tick's breakdown observes completion), the first work tick
latches `isTimeReached`, forces every tracker to value 0 and fires the
completion callback exactly once; any number of further work ticks leaves the
clock state — trackers and callback count included — completely unchanged. -/
theorem countdown_completion_latch (s0 : IX.ClockState) (b : Breakdown)
    (bs : List Breakdown)
    (hc : s0.isCountdown = true)
    (hl : s0.isTimeReached = false)
    (h0 : s0.callbackCount = 0)
    (hb : IX.shouldCompleteCountdown s0.showSeconds s0.earlyCompletionMs b.Total = true)
    (hbs : ∀ b' ∈ bs, IX.shouldCompleteCountdown s0.showSeconds s0.earlyCompletionMs b'.Total = true) :
    (IX.clockWork b s0).callbackCount = 1 ∧
    (IX.clockWork b s0).isTimeReached = true ∧
    allTrackersZero (IX.clockWork b s0).trackers = true ∧
    clockWorkRun bs (IX.clockWork b s0) = IX.clockWork b s0 := by
  have hstep : IX.clockWork b s0 =
      IX.handleCountdownComplete { s0 with isTimeReached := true } := by
    unfold IX.clockWork
    rw [hc, hb]
    simp [hl]
  refine ⟨?_, ?_, ?_, ?_⟩
  · rw [hstep]
    simp [IX.handleCountdownComplete, h0]
  · rw [hstep]
    rfl
  · rw [hstep]
    simp only [IX.handleCountdownComplete, allTrackersZero, List.all_map]
    rw [List.all_eq_true]
    intro p _
    simp only [Function.comp_apply]
    rw [update_zero_currentValue]
    simp
  · have hc1 : (IX.clockWork b s0).isCountdown = true := by rw [hstep]; exact hc
    have hl1 : (IX.clockWork b s0).isTimeReached = true := by rw [hstep]; rfl
    have hss : (IX.clockWork b s0).showSeconds = s0.showSeconds := by rw [hstep]; rfl
    have hem : (IX.clockWork b s0).earlyCompletionMs = s0.earlyCompletionMs := by
      rw [hstep]; rfl
    exact clockWorkRun_latched bs (IX.clockWork b s0) hc1 hl1
      fun b' hb' => by rw [hss, hem]; exact hbs b' hb'

/-- Witness for the completion latch: a concrete two-tracker countdown clock
whose target is one second in the past fires the callback once on the first
work tick, zeroes both trackers, and is untouched by two further ticks. -/
theorem countdown_completion_latch_witness :
    (IX.clockWork bPast ixClockEx).callbackCount = 1 ∧
    (IX.clockWork bPast ixClockEx).isTimeReached = true ∧
    allTrackersZero (IX.clockWork bPast ixClockEx).trackers = true ∧
    clockWorkRun [bPast, bPast] (IX.clockWork bPast ixClockEx) =
      IX.clockWork bPast ixClockEx :=
  countdown_completion_latch ixClockEx bPast [bPast, bPast]
    rfl rfl rfl (by decide) (by decide)
